import Mathlib

/-!
Verification development for the Layer Animation Engine of the
rockwell-nws weather map (source: src/main.js).

The engine is embedded shallowly:

* Raw provider payloads (the JSON bodies of maps.json / satellite.json)
  are modelled by the inductive type `JVal`.  JavaScript numbers are
  restricted to integer values; a non-finite numeric value (NaN or an
  infinity) is the dedicated constructor `JVal.nan`.  JSON has no
  `undefined`, so a missing object property is `Option.none` at the
  lookup sites.
* The mutable globals of main.js (`rainFrames`, `satelliteFrames`,
  `rainLayer`, `radarLayer`, `frameIndex`, `animTimer`, `isPlaying`,
  `currentMode`, `currentLayerType`, `MAX_FRAMES`, `FRAME_INTERVAL`,
  `TILE_SIZE`) become the fields of the structure `AnimState`; each
  public operation of main.js becomes a function `AnimState → AnimState`.
* A Leaflet tile layer is modelled by its tile URL (`Option String`,
  `none` meaning the JS variable is null); attachment to the map
  (`map.hasLayer`/`addTo`/`removeLayer`) is a Bool flag that tracks
  whether the object currently referenced by the variable is on the map.
* DOM updates (sliders, labels, diagnostic text) and the layer opacity
  are display glue outside the claims and are not modelled.
-/

namespace RockwellNws

/-- JavaScript value tree for JSON payloads.  Numeric values are
restricted to integers; `nan` stands for any non-finite number.
Object fields are an association list, assumed unique-keyed (the shape
produced by JSON parsing). -/
inductive JVal where
  | null
  | bool (b : Bool)
  | num (n : Int)
  | nan
  | str (s : String)
  | arr (xs : List JVal)
  | obj (fields : List (String × JVal))
deriving Repr

/-- JS truthiness test: null, false, 0, NaN and the empty string are
falsy; arrays and objects are always truthy (mirrors `if (!val)`). -/
def isFalsy : JVal → Bool
  | .null => true
  | .bool b => !b
  | .num n => n == 0
  | .nan => true
  | .str s => s == ""
  | .arr _ => false
  | .obj _ => false

/-- Number(s) for a string, restricted to integer literals: the empty
or all-whitespace string converts to 0, an optionally negated digit
string parses as an integer, anything else is NaN (`none`).  Fractional,
hexadecimal and exponent forms of JS are outside the integer-valued
restriction of this model and map to `none`. -/
def jsStrToNumber (s : String) : Option Int :=
  let t := s.trim
  if t = "" then some 0
  else if t.startsWith "-" then ((t.drop 1).toNat?).map (fun n => -(n : Int))
  else (t.toNat?).map (fun n => (n : Int))

/-- Number(v) coercion followed by the Number.isFinite test: `some n`
when the coercion yields the finite number `n`, `none` when it yields
NaN.  Arrays and plain objects coerce through their string form, which
is non-numeric for every payload the claims exercise; they are modelled
as NaN here. -/
def toNumber : JVal → Option Int
  | .null => some 0
  | .bool b => some (if b then 1 else 0)
  | .num n => some n
  | .nan => none
  | .str s => jsStrToNumber s
  | .arr _ => none
  | .obj _ => none

/-- Property lookup inside an object field list (unique keys assumed). -/
def getField (fields : List (String × JVal)) (k : String) : Option JVal :=
  (fields.find? (fun p => p.1 == k)).map (fun p => p.2)

/-- Property access `v.k` in JS: `none` plays the role of undefined.
Property access on a non-object primitive yields undefined; access on
null would throw, which the call sites exclude. -/
def jsProp (v : JVal) (k : String) : Option JVal :=
  match v with
  | .obj fields => getField fields k
  | _ => none

/-- One satellite-family frame as pushed by `extractSatelliteFrames` in
main.js: a non-empty path identifier and the finite embedded time, if
any (`time: Number.isFinite(time) ? time : null`). -/
structure SatFrame where
  path : String
  time : Option Int
deriving DecidableEq, Repr

mutual
/-- The recursive `visit` of `extractSatelliteFrames` (main.js).
Falsy values return immediately (this also guards the null case);
arrays visit each element; objects first push a frame when they carry a
non-empty string `path` (JS pushes when `typeof val.path === 'string'`
holds and the string is truthy) together with the coerced `time`, then
visit every field value; other scalars contribute nothing. -/
def visitVal : JVal → List SatFrame
  | .null => []
  | .bool _ => []
  | .num _ => []
  | .nan => []
  | .str _ => []
  | .arr xs => visitList xs
  | .obj fields =>
      (match getField fields "path" with
        | some (.str s) =>
            if s = "" then [] else [⟨s, (getField fields "time").bind toNumber⟩]
        | _ => []) ++ visitFields fields

/-- `val.forEach(visit)` over an array. -/
def visitList : List JVal → List SatFrame
  | [] => []
  | x :: xs => visitVal x ++ visitList xs

/-- `Object.values(val).forEach(visit)` over the fields of an object. -/
def visitFields : List (String × JVal) → List SatFrame
  | [] => []
  | (_, v) :: rest => visitVal v ++ visitFields rest
end

/-- The dedup loop of `extractSatelliteFrames`: walk the collected
frames with a set of seen paths, skipping frames with an empty path or
an already-seen path, so the first occurrence of each path wins. -/
def dedupByPath (seen : List String) : List SatFrame → List SatFrame
  | [] => []
  | f :: rest =>
      if f.path = "" ∨ seen.contains f.path then dedupByPath seen rest
      else f :: dedupByPath (f.path :: seen) rest

/-- Sort key of the comparator `(a, b) => ta - tb` in
`extractSatelliteFrames`: a missing time sorts as 0. -/
def timeOrZero (f : SatFrame) : Int := f.time.getD 0

/-- The order imposed by the comparator `(a, b) => ta - tb`. -/
def satLe (a b : SatFrame) : Prop := timeOrZero a ≤ timeOrZero b

instance : DecidableRel satLe := fun _ _ => Int.decLe _ _

instance : IsTotal SatFrame satLe := ⟨fun _ _ => Int.le_total _ _⟩

instance : IsTrans SatFrame satLe := ⟨fun _ _ _ h h2 => le_trans h h2⟩

/-- extractSatelliteFrames (main.js): collect, dedup by path with the
first occurrence winning, then sort ascending by time with a missing
time treated as 0.  The JS `Array.prototype.sort` is required to be
stable, and a stable sort is uniquely determined by its comparator, so
it is modelled by the stable `List.insertionSort`. -/
def extractSatelliteFrames (source : JVal) : List SatFrame :=
  (dedupByPath [] (visitVal source)).insertionSort satLe

/-- Array.prototype.slice with a negated count, as in
`frames.slice(-MAX_FRAMES)`: for a positive count keep the last `n`
entries; `slice(-0)` is `slice(0)` and keeps the whole array. -/
def jsSliceLast (n : Nat) (l : List α) : List α :=
  if n = 0 then l else l.drop (l.length - n)

/-- Number(f.time) for a raw radar feed entry, combined with the
Number.isFinite filter.  Property access on a non-object yields
undefined, hence NaN; a null entry would throw in the source and is
excluded by hypothesis where this is used. -/
def jsPropTime (v : JVal) : Option Int := (jsProp v "time").bind toNumber

/-- Radar branch of initRadarAnimation (main.js): concatenate past and
nowcast, coerce each entry time to a number, drop non-finite values,
sort ascending with the comparator `(a, b) => a - b` (a stable sort,
modelled by `List.insertionSort`), then `slice(-maxFrames)`. -/
def normalizeRadarFrames (past nowc : List JVal) (maxFrames : Nat) : List Int :=
  jsSliceLast maxFrames
    ((((past ++ nowc).map jsPropTime).filterMap id).insertionSort (· ≤ ·))

/-- Modelled from the words of spec section 4.1, for comparison with
`normalizeRadarFrames`: "concatenate past→nowcast, coerce to numbers,
discard non-finite values, sort ascending, then retain only the last
maxFrames entries (drop oldest first)". -/
def keepLast (n : Nat) (l : List α) : List α := l.drop (l.length - n)

/-- Modelled from the words of spec section 4.1 (the radar bullet),
using `keepLast` for the retention step. -/
def specRadarFrames (past nowc : List JVal) (maxFrames : Nat) : List Int :=
  keepLast maxFrames
    ((((past ++ nowc).map jsPropTime).filterMap id).insertionSort (· ≤ ·))

/-- The four layer types (`VALID_LAYER_TYPES` in main.js). -/
inductive Layer where
  | radar
  | satellite
  | clouds
  | temp
deriving DecidableEq, Repr

/-- The four display modes of `currentMode` in main.js. -/
inductive Mode where
  | auto
  | animated
  | static
  | off
deriving DecidableEq, Repr

/-- String.prototype.toLowerCase restricted to ASCII, written over the
character list so that it evaluates by kernel reduction. -/
def jsToLower (s : String) : String := String.mk (s.data.map Char.toLower)

/-- normalizeLayerType (main.js): lower-case the input and resolve it
through LAYER_ALIASES, defaulting to radar for a falsy or unknown
value. -/
def normalizeLayerType (layerType : String) : Layer :=
  if layerType = "" then .radar
  else
    match jsToLower layerType with
    | "radar" | "precip" | "precipitation" | "rain" => .radar
    | "satellite" | "visible" | "vis" => .satellite
    | "clouds" | "cloud" | "ir" | "infrared" => .clouds
    | "temp" | "temperature" => .temp
    | _ => .radar

/-- getStaticLayerUrl (main.js).  Literal braces of the tile templates
are escaped. -/
def getStaticLayerUrl (layer : Layer) : String :=
  match layer with
  | .radar =>
      "https://mesonet.agron.iastate.edu/cache/tile.py/1.0.0/ridge::USCOMP-N0Q-0/\x7bz\x7d/\x7bx\x7d/\x7by\x7d.png"
  | .satellite =>
      "https://mesonet.agron.iastate.edu/cache/tile.py/1.0.0/ridge::GOES-CONUS-VIS-0/\x7bz\x7d/\x7bx\x7d/\x7by\x7d.png"
  | .clouds | .temp =>
      "https://mesonet.agron.iastate.edu/cache/tile.py/1.0.0/ridge::GOES-CONUS-13-0/\x7bz\x7d/\x7bx\x7d/\x7by\x7d.png"

/-- A frame token as returned by getFrameToken (main.js): a numeric
timestamp for radar, an opaque path for the satellite family. -/
inductive FrameToken where
  | num (t : Int)
  | path (s : String)
deriving DecidableEq, Repr

/-- rvFrameUrl (main.js): radar tiles key on the numeric timestamp
(non-finite tokens fall back to 0, unreachable here since radar frames
are finite by construction); satellite-family tiles key on the path,
with a falsy token replaced by "0"; satellite uses the visible band
suffix 0_0, clouds and temp the infrared suffix 0_1. -/
def rvFrameUrl (frameToken : FrameToken) (size : Nat) (layerType : Layer) : String :=
  match layerType with
  | .radar =>
      let ts := match frameToken with | .num t => t | .path _ => 0
      "https://tilecache.rainviewer.com/v2/radar/" ++ toString ts ++ "/" ++
        toString size ++ "/\x7bz\x7d/\x7bx\x7d/\x7by\x7d/2/1_1.png"
  | .satellite =>
      let pathId := match frameToken with
        | .num t => toString t
        | .path s => if s = "" then "0" else s
      "https://tilecache.rainviewer.com/v2/satellite/" ++ pathId ++ "/" ++
        toString size ++ "/\x7bz\x7d/\x7bx\x7d/\x7by\x7d/0/0_0.png"
  | .clouds | .temp =>
      let pathId := match frameToken with
        | .num t => toString t
        | .path s => if s = "" then "0" else s
      "https://tilecache.rainviewer.com/v2/satellite/" ++ pathId ++ "/" ++
        toString size ++ "/\x7bz\x7d/\x7bx\x7d/\x7by\x7d/0/0_1.png"

/-- The mutable globals of the animation engine in main.js.  Layers are
modelled by their tile URL (`none` is the JS null); the `Attached`
flags model `map.hasLayer` for the object currently referenced by the
corresponding variable; `timers` counts the live interval timers
(`setInterval` handles that have not been cleared), while `animTimer`
models whether the `animTimer` variable holds a handle. -/
structure AnimState where
  rainFrames : List Int
  satelliteFrames : List SatFrame
  rainLayer : Option String
  rainAttached : Bool
  radarLayer : Option String
  radarAttached : Bool
  frameIndex : Int
  animTimer : Bool
  timers : Nat
  isPlaying : Bool
  currentMode : Mode
  currentLayerType : Layer
  MAX_FRAMES : Nat
  FRAME_INTERVAL : Nat
  TILE_SIZE : Nat
deriving DecidableEq, Repr

/-- The frame list the engine drives, selected everywhere in main.js by
`currentLayerType === 'radar' ? rainFrames : satelliteFrames`; this is
its length (the two lists have different element types). -/
def activeFrameCount (s : AnimState) : Nat :=
  match s.currentLayerType with
  | .radar => s.rainFrames.length
  | _ => s.satelliteFrames.length

/-- getFrameToken (main.js) applied to the active frame list at index
`i`: `none` when the index is out of range (`frames[i]` is undefined
and getFrameToken returns null).  Radar frames are finite numbers and
satellite frames carry a string path, so an in-range index always
yields a token. -/
def activeToken (s : AnimState) (i : Nat) : Option FrameToken :=
  match s.currentLayerType with
  | .radar => (s.rainFrames.get? i).map FrameToken.num
  | _ => (s.satelliteFrames.get? i).map (fun f => FrameToken.path f.path)

/-- The effective render state (spec glossary): the overlay actually
shown.  The animated overlay has the higher z-index, so it is the one
rendered on top if both were attached. -/
inductive RenderState where
  | off
  | static
  | animated
deriving DecidableEq, Repr

/-- Derives the effective render state from the attachment flags. -/
def effectiveRenderState (s : AnimState) : RenderState :=
  if s.rainAttached then .animated
  else if s.radarAttached then .static
  else .off

/-- showFrame (main.js): with no active frames, warn and return;
otherwise set `frameIndex = (i + frames.length) % frames.length` (the
JS remainder truncates toward zero), return early when the token is
null, and otherwise either retarget the attached animated layer with
setUrl or build a fresh animated layer, attaching it when the mode is
animated or auto. -/
def showFrame (i : Int) (s : AnimState) : AnimState :=
  let len := activeFrameCount s
  if len = 0 then s
  else
    let idx : Int := (i + len).tmod len
    let s := { s with frameIndex := idx }
    match (if 0 ≤ idx then activeToken s idx.toNat else none) with
    | none => s
    | some tok =>
        let url := rvFrameUrl tok s.TILE_SIZE s.currentLayerType
        if s.rainLayer.isSome && s.rainAttached then
          { s with rainLayer := some url }
        else
          let s := { s with rainLayer := some url }
          if s.currentMode = .animated ∨ s.currentMode = .auto then
            { s with rainAttached := true }
          else s

/-- play (main.js): a no-op when a timer is live or the active frame
list is empty; otherwise mark playing and start the interval timer. -/
def play (s : AnimState) : AnimState :=
  if s.animTimer || activeFrameCount s = 0 then s
  else { s with isPlaying := true, animTimer := true, timers := s.timers + 1 }

/-- pause (main.js): clear the playing flag, and clear the interval
timer when one is live. -/
def pause (s : AnimState) : AnimState :=
  let s := { s with isPlaying := false }
  if s.animTimer then { s with animTimer := false, timers := s.timers - 1 }
  else s

/-- setMode (main.js): store the mode, then re-wire the overlays.
off detaches both; static detaches the animated overlay and attaches
the static one when it exists; animated and auto detach the static
overlay and attach the animated overlay object when one exists (there
is no frame-availability check in this function). -/
def setMode (mode : Mode) (s : AnimState) : AnimState :=
  let s := { s with currentMode := mode }
  match mode with
  | .off => { s with radarAttached := false, rainAttached := false }
  | .static =>
      let s := { s with rainAttached := false }
      if s.radarLayer.isSome then { s with radarAttached := true } else s
  | .animated | .auto =>
      let s := { s with radarAttached := false }
      if s.rainLayer.isSome then { s with rainAttached := true } else s

/-- The tail of setLayerType (main.js) after the layer type is stored,
both overlays are detached and the fresh static layer object is built:
when the new active frame list is non-empty, drop the animated layer
object, reset `frameIndex` to the last frame, show it, reapply the
stored mode and resume when previously playing.  When it is empty and
the stored mode is animated or auto, fall back with `setMode('static')`
and return; for static or off reapply the stored mode and resume when
previously playing (a no-op on an empty list). -/
def setLayerTypeFinish (wasPlaying : Bool) (s : AnimState) : AnimState :=
  let len := activeFrameCount s
  if 0 < len then
    let s := { s with rainLayer := none, frameIndex := (len : Int) - 1 }
    let s := showFrame ((len : Int) - 1) s
    let s := setMode s.currentMode s
    if wasPlaying then play s else s
  else if s.currentMode = .animated ∨ s.currentMode = .auto then
    setMode .static s
  else
    let s := setMode s.currentMode s
    if wasPlaying then play s else s

/-- setLayerType (main.js): remember the playing flag and pause; store
the normalized layer type; detach both overlays; build a fresh static
layer object for the new type (not yet attached); then hand over to
`setLayerTypeFinish`. -/
def setLayerType (layerType : String) (s : AnimState) : AnimState :=
  let wasPlaying := s.isPlaying
  let s := if wasPlaying then pause s else s
  let normalized := normalizeLayerType layerType
  let s := { s with currentLayerType := normalized }
  let s := { s with radarAttached := false, rainAttached := false }
  let s := { s with radarLayer := some (getStaticLayerUrl normalized) }
  setLayerTypeFinish wasPlaying s

/-- setResolution (main.js): remember the playing flag and pause; set
the tile size and the size-tied interval (650 ms for 512, else 450 ms);
detach and discard the animated layer object; redisplay the current
frame; reapply the stored mode; resume when previously playing. -/
def setResolution (size : Nat) (s : AnimState) : AnimState :=
  let wasPlaying := s.isPlaying
  let s := if wasPlaying then pause s else s
  let s := { s with
    TILE_SIZE := size,
    FRAME_INTERVAL := if size = 512 then 650 else 450 }
  let s := { s with rainAttached := false, rainLayer := none }
  let s := showFrame s.frameIndex s
  let s := setMode s.currentMode s
  if wasPlaying then play s else s

/-- Outcome of one awaited fetch of a remote feed. -/
inductive FetchResult where
  | fail
  | notOk
  | badJson
  | ok (data : JVal)

/-- The radar-frames stage of initRadarAnimation (main.js): rebuild
`rainFrames` from `data.radar` when `data && data.radar` holds, from
the legacy array shape when `data` is an array, and as the empty list
otherwise, capped with `slice(-MAX_FRAMES)`. -/
def refreshRainFrames (data : JVal) (maxFrames : Nat) : List Int :=
  match (if isFalsy data then none else jsProp data "radar") with
  | some r =>
      if isFalsy r then
        match data with
        | .arr xs => jsSliceLast maxFrames ((xs.filterMap toNumber).insertionSort (· ≤ ·))
        | _ => []
      else
        let past := match jsProp r "past" with | some (.arr xs) => xs | _ => []
        let nowc := match jsProp r "nowcast" with | some (.arr xs) => xs | _ => []
        normalizeRadarFrames past nowc maxFrames
  | none =>
      match data with
      | .arr xs => jsSliceLast maxFrames ((xs.filterMap toNumber).insertionSort (· ≤ ·))
      | _ => []

/-- The satellite-frames stage of initRadarAnimation (main.js): extract
from `data.satellite` when `data && data.satellite` holds, falling back
to the satellite.json response when that yields nothing; any error in
the fallback fetch degrades to the empty list (`catch` sets
`satFrames = []`, a non-OK response leaves it empty). -/
def refreshSatFrames (data : JVal) (satRes : FetchResult) : List SatFrame :=
  let satCollected :=
    match (if isFalsy data then none else jsProp data "satellite") with
    | some sv => if isFalsy sv then [] else extractSatelliteFrames sv
    | none => []
  if satCollected.isEmpty then
    match satRes with
    | .ok sdata => extractSatelliteFrames sdata
    | _ => []
  else satCollected

/-- The tail of initRadarAnimation (main.js) after both frame lists are
stored: when the active list is non-empty, show its last frame, reapply
the stored mode and drop a doubly-attached static overlay (present when
the mode is animated or auto); when it is empty, fall back with
`setMode('static')`. -/
def refreshFinish (s : AnimState) : AnimState :=
  if 0 < activeFrameCount s then
    let s := showFrame ((activeFrameCount s : Int) - 1) s
    let s := setMode s.currentMode s
    if s.radarAttached ∧ (s.currentMode = .animated ∨ s.currentMode = .auto) then
      { s with radarAttached := false }
    else s
  else setMode .static s

/-- initRadarAnimation (main.js), as a function of the outcomes of the
maps.json fetch and of the fallback satellite.json fetch.  A network
error, a non-OK response or invalid JSON all end in `setMode('static')`
with every other field untouched.  On success the radar frames are
rebuilt by `refreshRainFrames`, the satellite frames by
`refreshSatFrames` capped with `slice(-MAX_FRAMES)`, and `refreshFinish`
re-resolves the mode policy. -/
def initRadarAnimation (radarRes satRes : FetchResult) (s : AnimState) : AnimState :=
  match radarRes with
  | .fail | .notOk | .badJson => setMode .static s
  | .ok data =>
      let s := { s with rainFrames := refreshRainFrames data s.MAX_FRAMES }
      let sat := jsSliceLast s.MAX_FRAMES (refreshSatFrames data satRes)
      let s := { s with satelliteFrames := sat }
      refreshFinish s

/-- RECOMMENDED_MAX_FRAMES (main.js): 24 on mobile, else tiered by the
device-memory hint, capped at 60. -/
def recommendedMaxFrames (deviceMem : Nat) (isMobile : Bool) : Nat :=
  min 60
    (if isMobile then 24
     else if deviceMem ≥ 8 then 48
     else if deviceMem ≥ 4 then 36
     else 24)

/-- The maxFrames input handler (main.js):
`Math.max(6, Math.min(60, parseInt(v, 10) || RECOMMENDED_MAX_FRAMES))`.
The input is the integer the field parses to; a parse result of 0 is
falsy in JS, so `||` replaces it (like NaN) with the recommended
default before clamping. -/
def maxFramesInputHandler (recommended : Nat) (input : Int) (s : AnimState) : AnimState :=
  let v : Int := max 6 (min 60 (if input = 0 then (recommended : Int) else input))
  { s with MAX_FRAMES := v.toNat }

/-- The engine state right after initMap (main.js): no frames yet, the
static NEXRAD radar overlay attached, mode auto, 256 px tiles at
450 ms, the mid-tier frame cap. -/
def initialState : AnimState where
  rainFrames := []
  satelliteFrames := []
  rainLayer := none
  rainAttached := false
  radarLayer := some (getStaticLayerUrl .radar)
  radarAttached := true
  frameIndex := 0
  animTimer := false
  timers := 0
  isPlaying := false
  currentMode := .auto
  currentLayerType := .radar
  MAX_FRAMES := 36
  FRAME_INTERVAL := 450
  TILE_SIZE := 256

/-- A public playback command, for reasoning over call sequences. -/
inductive PlayOp where
  | playOp
  | pauseOp
deriving DecidableEq, Repr

/-- Run one playback command. -/
def applyOp : PlayOp → AnimState → AnimState
  | .playOp, s => play s
  | .pauseOp, s => pause s

/-- Run a sequence of playback commands. -/
def applyOps (ops : List PlayOp) (s : AnimState) : AnimState :=
  ops.foldl (fun s op => applyOp op s) s

/-- Timer sanity: at most one live interval timer, and the stored
handle is non-null exactly when one is live. -/
def timerInv (s : AnimState) : Prop :=
  s.timers ≤ 1 ∧ (s.animTimer = true ↔ s.timers = 1)

/-- The satellite payload of the duplicate-path scenario: three frame
records with paths a, b, a and embedded times 30, 10, 20. -/
def satDemoPayload : JVal :=
  .arr [ .obj [("path", .str "a"), ("time", .num 30)],
         .obj [("path", .str "b"), ("time", .num 10)],
         .obj [("path", .str "a"), ("time", .num 20)] ]

/-- The radar feed entries of the maxFrames truncation scenario. -/
def radarDemoPast : List JVal :=
  [.obj [("time", .num 100)], .obj [("time", .num 200)], .obj [("time", .num 300)]]

/-- The nowcast entries of the maxFrames truncation scenario. -/
def radarDemoNowc : List JVal := [.obj [("time", .num 400)]]

/-- A well-formed maps.json body with one radar frame and no satellite
data, used to witness the refresh path. -/
def radarOkPayload : JVal :=
  .obj [("radar", .obj [("past", .arr [.obj [("time", .num 100)]]),
                        ("nowcast", .arr [])])]

/-- A state with loaded frames for both layers and running playback. -/
def demoPlayingState : AnimState := { initialState with rainFrames := [100], satelliteFrames := [⟨"aa", some 5⟩], isPlaying := true, animTimer := true, timers := 1 }

/-- A paused state with three radar frames and frameIndex 1. -/
def demoFramesState : AnimState := { initialState with rainFrames := [10, 20, 30], frameIndex := 1 }

/-! ## Helper lemmas -/

theorem contains_iff_mem (l : List String) (a : String) :
    l.contains a = true ↔ a ∈ l := by
  simp

theorem mem_of_mem_dedupByPath {f : SatFrame} :
    ∀ (seen : List String) (l : List SatFrame), f ∈ dedupByPath seen l → f ∈ l := by
  intro seen l
  induction l generalizing seen with
  | nil => intro h; exact absurd h (by simp [dedupByPath])
  | cons a rest ih =>
      intro h
      unfold dedupByPath at h
      by_cases hc : a.path = "" ∨ seen.contains a.path
      · rw [if_pos hc] at h
        exact List.mem_cons_of_mem a (ih seen h)
      · rw [if_neg hc] at h
        rw [List.mem_cons] at h
        rcases h with h | h
        · exact h ▸ List.mem_cons_self a rest
        · exact List.mem_cons_of_mem a (ih _ h)

theorem dedupByPath_first_wins {f : SatFrame} :
    ∀ (seen : List String) (l : List SatFrame), f ∈ dedupByPath seen l →
      f.path ≠ "" ∧ ¬ f.path ∈ seen ∧
      List.find? (fun g => g.path == f.path) l = some f := by
  intro seen l
  induction l generalizing seen with
  | nil => intro h; exact absurd h (by simp [dedupByPath])
  | cons a rest ih =>
      intro h
      unfold dedupByPath at h
      by_cases hc : a.path = "" ∨ seen.contains a.path
      · rw [if_pos hc] at h
        obtain ⟨hne, hnotin, hfind⟩ := ih seen h
        have hap : a.path ≠ f.path := by
          rcases hc with hc | hc
          · rw [hc]; exact fun hx => hne hx.symm
          · intro hx; rw [hx] at hc; rw [contains_iff_mem] at hc; exact hnotin hc
        refine ⟨hne, hnotin, ?_⟩
        rw [List.find?_cons]
        have hfalse : (a.path == f.path) = false := by simpa using hap
        simp [hfalse, hfind]
      · rw [if_neg hc] at h
        push_neg at hc
        obtain ⟨hane, hans⟩ := hc
        rw [List.mem_cons] at h
        rcases h with h | h
        · subst h
          refine ⟨hane, fun hx => hans (by rwa [contains_iff_mem]), ?_⟩
          rw [List.find?_cons]
          simp
        · obtain ⟨hne, hnotin, hfind⟩ := ih (a.path :: seen) h
          have hap : a.path ≠ f.path := by
            intro hx
            exact hnotin (hx ▸ List.mem_cons_self a.path seen)
          have hnotin2 : ¬ f.path ∈ seen := fun hx => hnotin (List.mem_cons_of_mem _ hx)
          refine ⟨hne, hnotin2, ?_⟩
          rw [List.find?_cons]
          have hfalse : (a.path == f.path) = false := by simpa using hap
          simp [hfalse, hfind]

theorem dedupByPath_nodup :
    ∀ (seen : List String) (l : List SatFrame),
      ((dedupByPath seen l).map SatFrame.path).Nodup := by
  intro seen l
  induction l generalizing seen with
  | nil => simp [dedupByPath]
  | cons a rest ih =>
      unfold dedupByPath
      by_cases hc : a.path = "" ∨ seen.contains a.path
      · rw [if_pos hc]; exact ih seen
      · rw [if_neg hc]
        simp only [List.map_cons, List.nodup_cons]
        refine ⟨?_, ih _⟩
        intro hmem
        obtain ⟨g, hg, hgp⟩ := List.mem_map.mp hmem
        obtain ⟨_, hnotin, _⟩ := dedupByPath_first_wins _ _ hg
        exact hnotin (hgp ▸ List.mem_cons_self a.path seen)

theorem dedupByPath_path_covered {p : String} (hp : p ≠ "") :
    ∀ (seen : List String) (l : List SatFrame), ¬ p ∈ seen →
      (∃ f ∈ l, f.path = p) → ∃ f ∈ dedupByPath seen l, f.path = p := by
  intro seen l
  induction l generalizing seen with
  | nil => intro _ h; simp at h
  | cons a rest ih =>
      intro hseen hex
      unfold dedupByPath
      by_cases hc : a.path = "" ∨ seen.contains a.path
      · rw [if_pos hc]
        refine ih seen hseen ?_
        rcases hex with ⟨f, hf, hfp⟩
        rw [List.mem_cons] at hf
        rcases hf with hf | hf
        · exfalso
          subst hf
          rcases hc with hc | hc
          · exact hp (hfp ▸ hc)
          · rw [contains_iff_mem] at hc
            exact hseen (hfp ▸ hc)
        · exact ⟨f, hf, hfp⟩
      · rw [if_neg hc]
        by_cases hap : a.path = p
        · exact ⟨a, List.mem_cons_self _ _, hap⟩
        · rcases hex with ⟨f, hf, hfp⟩
          rw [List.mem_cons] at hf
          rcases hf with hf | hf
          · exact absurd (hf ▸ hfp) hap
          · have hseen2 : ¬ p ∈ a.path :: seen := by
              intro hx
              rw [List.mem_cons] at hx
              rcases hx with hx | hx
              · exact hap hx.symm
              · exact hseen hx
            obtain ⟨g, hg, hgp⟩ := ih (a.path :: seen) hseen2 ⟨f, hf, hfp⟩
            exact ⟨g, List.mem_cons_of_mem _ hg, hgp⟩

theorem jsSliceLast_of_pos {n : Nat} (l : List α) (h : n ≠ 0) :
    jsSliceLast n l = l.drop (l.length - n) := by
  simp [jsSliceLast, h]

theorem length_jsSliceLast {n : Nat} (l : List α) (h : n ≠ 0) :
    (jsSliceLast n l).length = min n l.length := by
  rw [jsSliceLast_of_pos l h, List.length_drop]
  omega

theorem jsSliceLast_suffix (n : Nat) (l : List α) :
    (jsSliceLast n l).IsSuffix l := by
  unfold jsSliceLast
  split
  · exact List.suffix_rfl
  · exact List.drop_suffix _ _

theorem tmod_inrange (i : Int) (len : Nat) (h0 : 0 ≤ i) (h1 : i < (len : Int)) :
    (i + (len : Int)).tmod (len : Int) = i := by
  rw [Int.tmod_eq_emod (by omega) (by omega)]
  have hstep : (i + (len : Int)) % (len : Int) = i % (len : Int) := by simp
  rw [hstep]
  exact Int.emod_eq_of_lt h0 h1

theorem tmod_last (len : Nat) (h : len ≠ 0) :
    (((len : Int) - 1) + (len : Int)).tmod (len : Int) = (len : Int) - 1 :=
  tmod_inrange _ _ (by omega) (by omega)

theorem activeFrameCount_congr {s1 s2 : AnimState}
    (h1 : s1.currentLayerType = s2.currentLayerType)
    (h2 : s1.rainFrames = s2.rainFrames)
    (h3 : s1.satelliteFrames = s2.satelliteFrames) :
    activeFrameCount s1 = activeFrameCount s2 := by
  unfold activeFrameCount
  rw [h1, h2, h3]

theorem activeToken_congr {s1 s2 : AnimState}
    (h1 : s1.currentLayerType = s2.currentLayerType)
    (h2 : s1.rainFrames = s2.rainFrames)
    (h3 : s1.satelliteFrames = s2.satelliteFrames) (k : Nat) :
    activeToken s1 k = activeToken s2 k := by
  unfold activeToken
  rw [h1, h2, h3]

theorem activeToken_isSome (s : AnimState) (k : Nat)
    (h : k < activeFrameCount s) : (activeToken s k).isSome := by
  unfold activeToken
  unfold activeFrameCount at h
  cases hLt : s.currentLayerType <;> rw [hLt] at h <;> dsimp only <;>
    rw [List.get?_eq_get h] <;> rfl

theorem showFrame_empty_noop (s : AnimState) (i : Int)
    (h : activeFrameCount s = 0) : showFrame i s = s := by
  unfold showFrame
  simp [h]

theorem showFrame_frameIndex (i : Int) (s : AnimState)
    (h : activeFrameCount s ≠ 0) :
    (showFrame i s).frameIndex
      = (i + (activeFrameCount s : Int)).tmod (activeFrameCount s : Int) := by
  unfold showFrame
  rw [if_neg h]
  dsimp only
  repeat' split
  all_goals rfl

theorem showFrame_preserved (i : Int) (s : AnimState) :
    (showFrame i s).rainFrames = s.rainFrames ∧
    (showFrame i s).satelliteFrames = s.satelliteFrames ∧
    (showFrame i s).currentMode = s.currentMode ∧
    (showFrame i s).currentLayerType = s.currentLayerType ∧
    (showFrame i s).isPlaying = s.isPlaying ∧
    (showFrame i s).animTimer = s.animTimer ∧
    (showFrame i s).timers = s.timers ∧
    (showFrame i s).radarLayer = s.radarLayer ∧
    (showFrame i s).radarAttached = s.radarAttached ∧
    (showFrame i s).MAX_FRAMES = s.MAX_FRAMES ∧
    (showFrame i s).FRAME_INTERVAL = s.FRAME_INTERVAL ∧
    (showFrame i s).TILE_SIZE = s.TILE_SIZE := by
  unfold showFrame
  dsimp only
  repeat' split
  all_goals simp

theorem showFrame_rainFrames (i : Int) (s : AnimState) :
    (showFrame i s).rainFrames = s.rainFrames := (showFrame_preserved i s).1

theorem showFrame_satelliteFrames (i : Int) (s : AnimState) :
    (showFrame i s).satelliteFrames = s.satelliteFrames := (showFrame_preserved i s).2.1

theorem showFrame_currentMode (i : Int) (s : AnimState) :
    (showFrame i s).currentMode = s.currentMode := (showFrame_preserved i s).2.2.1

theorem showFrame_currentLayerType (i : Int) (s : AnimState) :
    (showFrame i s).currentLayerType = s.currentLayerType :=
  (showFrame_preserved i s).2.2.2.1

theorem showFrame_isPlaying (i : Int) (s : AnimState) :
    (showFrame i s).isPlaying = s.isPlaying := (showFrame_preserved i s).2.2.2.2.1

theorem showFrame_animTimer (i : Int) (s : AnimState) :
    (showFrame i s).animTimer = s.animTimer := (showFrame_preserved i s).2.2.2.2.2.1

theorem showFrame_timers (i : Int) (s : AnimState) :
    (showFrame i s).timers = s.timers := (showFrame_preserved i s).2.2.2.2.2.2.1

theorem showFrame_radarLayer (i : Int) (s : AnimState) :
    (showFrame i s).radarLayer = s.radarLayer :=
  (showFrame_preserved i s).2.2.2.2.2.2.2.1

theorem showFrame_radarAttached (i : Int) (s : AnimState) :
    (showFrame i s).radarAttached = s.radarAttached :=
  (showFrame_preserved i s).2.2.2.2.2.2.2.2.1

theorem showFrame_activeFrameCount (i : Int) (s : AnimState) :
    activeFrameCount (showFrame i s) = activeFrameCount s :=
  activeFrameCount_congr (showFrame_currentLayerType i s)
    (showFrame_rainFrames i s) (showFrame_satelliteFrames i s)

theorem showFrame_attach (i : Int) (s : AnimState)
    (hlen : activeFrameCount s ≠ 0)
    (hm : s.currentMode = .animated ∨ s.currentMode = .auto)
    (hi0 : 0 ≤ i) (hi1 : i < (activeFrameCount s : Int)) :
    (showFrame i s).rainAttached = true ∧ (showFrame i s).rainLayer.isSome := by
  have hidx : (i + (activeFrameCount s : Int)).tmod (activeFrameCount s : Int) = i :=
    tmod_inrange _ _ hi0 hi1
  have hklt : i.toNat < activeFrameCount s := by omega
  have htok : (activeToken { s with frameIndex := i } i.toNat).isSome := by
    rw [activeToken_congr rfl rfl rfl]
    exact activeToken_isSome s i.toNat hklt
  obtain ⟨tok, htok⟩ := Option.isSome_iff_exists.mp htok
  unfold showFrame
  rw [if_neg hlen]
  dsimp only
  rw [hidx, if_pos hi0, htok]
  dsimp only
  repeat' split
  all_goals
    first
      | (rename_i hcond
         exact ⟨(Bool.and_eq_true_iff.mp hcond).2, by simp⟩)
      | (exact ⟨rfl, by simp⟩)

theorem pause_spec_on (s : AnimState) (h : s.animTimer = true) :
    pause s = { s with isPlaying := false, animTimer := false, timers := s.timers - 1 } := by
  unfold pause
  dsimp only
  simp [h]

theorem pause_spec_off (s : AnimState) (h : s.animTimer = false) :
    pause s = { s with isPlaying := false } := by
  unfold pause
  dsimp only
  simp [h]

theorem play_noop_timer (s : AnimState) (h : s.animTimer = true) : play s = s := by
  unfold play
  simp [h]

theorem play_noop_empty (s : AnimState) (h : activeFrameCount s = 0) : play s = s := by
  unfold play
  simp [h]

theorem play_spec (s : AnimState) (h1 : s.animTimer = false)
    (h2 : activeFrameCount s ≠ 0) :
    play s = { s with isPlaying := true, animTimer := true, timers := s.timers + 1 } := by
  unfold play
  simp [h1, h2]

theorem play_play (s : AnimState) : play (play s) = play s := by
  unfold play
  repeat' split
  all_goals simp_all

theorem pause_pause (s : AnimState) : pause (pause s) = pause s := by
  unfold pause
  dsimp only
  repeat' split
  all_goals simp_all

theorem setMode_preserved (m : Mode) (s : AnimState) :
    (setMode m s).rainFrames = s.rainFrames ∧
    (setMode m s).satelliteFrames = s.satelliteFrames ∧
    (setMode m s).currentLayerType = s.currentLayerType ∧
    (setMode m s).frameIndex = s.frameIndex ∧
    (setMode m s).isPlaying = s.isPlaying ∧
    (setMode m s).animTimer = s.animTimer ∧
    (setMode m s).timers = s.timers ∧
    (setMode m s).radarLayer = s.radarLayer ∧
    (setMode m s).rainLayer = s.rainLayer ∧
    (setMode m s).MAX_FRAMES = s.MAX_FRAMES ∧
    (setMode m s).FRAME_INTERVAL = s.FRAME_INTERVAL ∧
    (setMode m s).TILE_SIZE = s.TILE_SIZE := by
  unfold setMode
  cases m <;> dsimp only <;> repeat' split
  all_goals simp

theorem setMode_currentMode (m : Mode) (s : AnimState) :
    (setMode m s).currentMode = m := by
  unfold setMode
  cases m <;> dsimp only <;> repeat' split
  all_goals simp

theorem setMode_activeFrameCount (m : Mode) (s : AnimState) :
    activeFrameCount (setMode m s) = activeFrameCount s :=
  activeFrameCount_congr (setMode_preserved m s).2.2.1 (setMode_preserved m s).1
    (setMode_preserved m s).2.1

theorem setMode_static_eff (s : AnimState) (h : s.radarLayer.isSome) :
    effectiveRenderState (setMode .static s) = .static := by
  unfold setMode effectiveRenderState
  dsimp only
  rw [if_pos h]
  simp

theorem setMode_animated_eff (m : Mode) (s : AnimState)
    (hm : m = .animated ∨ m = .auto) (h : s.rainLayer.isSome) :
    effectiveRenderState (setMode m s) = .animated := by
  unfold setMode effectiveRenderState
  rcases hm with hm | hm <;> subst hm <;> dsimp only <;> rw [if_pos h] <;> simp

theorem setMode_rainFrames (m : Mode) (s : AnimState) :
    (setMode m s).rainFrames = s.rainFrames := (setMode_preserved m s).1

theorem setMode_satelliteFrames (m : Mode) (s : AnimState) :
    (setMode m s).satelliteFrames = s.satelliteFrames := (setMode_preserved m s).2.1

theorem setMode_currentLayerType (m : Mode) (s : AnimState) :
    (setMode m s).currentLayerType = s.currentLayerType := (setMode_preserved m s).2.2.1

theorem setMode_frameIndex (m : Mode) (s : AnimState) :
    (setMode m s).frameIndex = s.frameIndex := (setMode_preserved m s).2.2.2.1

theorem setMode_isPlaying (m : Mode) (s : AnimState) :
    (setMode m s).isPlaying = s.isPlaying := (setMode_preserved m s).2.2.2.2.1

theorem setMode_animTimer (m : Mode) (s : AnimState) :
    (setMode m s).animTimer = s.animTimer := (setMode_preserved m s).2.2.2.2.2.1

theorem setMode_timers (m : Mode) (s : AnimState) :
    (setMode m s).timers = s.timers := (setMode_preserved m s).2.2.2.2.2.2.1

theorem setMode_radarLayer (m : Mode) (s : AnimState) :
    (setMode m s).radarLayer = s.radarLayer := (setMode_preserved m s).2.2.2.2.2.2.2.1

theorem setMode_rainLayer (m : Mode) (s : AnimState) :
    (setMode m s).rainLayer = s.rainLayer := (setMode_preserved m s).2.2.2.2.2.2.2.2.1

theorem activeFrameCount_mk (rf : List Int) (sf : List SatFrame) (rl : Option String)
    (rb : Bool) (sl : Option String) (sb : Bool) (fi : Int) (tA : Bool) (tc : Nat)
    (ip : Bool) (cm : Mode) (cl : Layer) (mf fiv ts : Nat) :
    activeFrameCount ⟨rf, sf, rl, rb, sl, sb, fi, tA, tc, ip, cm, cl, mf, fiv, ts⟩
      = (match cl with | .radar => rf.length | _ => sf.length) := rfl


theorem play_preserved (s : AnimState) :
    (play s).rainFrames = s.rainFrames ∧
    (play s).satelliteFrames = s.satelliteFrames ∧
    (play s).currentMode = s.currentMode ∧
    (play s).currentLayerType = s.currentLayerType ∧
    (play s).frameIndex = s.frameIndex ∧
    (play s).rainLayer = s.rainLayer ∧
    (play s).rainAttached = s.rainAttached ∧
    (play s).radarLayer = s.radarLayer ∧
    (play s).radarAttached = s.radarAttached ∧
    (play s).MAX_FRAMES = s.MAX_FRAMES ∧
    (play s).FRAME_INTERVAL = s.FRAME_INTERVAL ∧
    (play s).TILE_SIZE = s.TILE_SIZE := by
  unfold play
  split
  all_goals simp

theorem play_frameIndex (s : AnimState) :
    (play s).frameIndex = s.frameIndex := (play_preserved s).2.2.2.2.1

theorem play_FRAME_INTERVAL (s : AnimState) :
    (play s).FRAME_INTERVAL = s.FRAME_INTERVAL := (play_preserved s).2.2.2.2.2.2.2.2.2.2.1

theorem play_TILE_SIZE (s : AnimState) :
    (play s).TILE_SIZE = s.TILE_SIZE := (play_preserved s).2.2.2.2.2.2.2.2.2.2.2

theorem play_activeFrameCount (s : AnimState) :
    activeFrameCount (play s) = activeFrameCount s :=
  activeFrameCount_congr (play_preserved s).2.2.2.1 (play_preserved s).1
    (play_preserved s).2.1

theorem pause_preserved (s : AnimState) :
    (pause s).rainFrames = s.rainFrames ∧
    (pause s).satelliteFrames = s.satelliteFrames ∧
    (pause s).currentMode = s.currentMode ∧
    (pause s).currentLayerType = s.currentLayerType ∧
    (pause s).frameIndex = s.frameIndex ∧
    (pause s).rainLayer = s.rainLayer ∧
    (pause s).rainAttached = s.rainAttached ∧
    (pause s).radarLayer = s.radarLayer ∧
    (pause s).radarAttached = s.radarAttached ∧
    (pause s).MAX_FRAMES = s.MAX_FRAMES ∧
    (pause s).FRAME_INTERVAL = s.FRAME_INTERVAL ∧
    (pause s).TILE_SIZE = s.TILE_SIZE := by
  unfold pause
  dsimp only
  split
  all_goals simp

theorem pause_frameIndex (s : AnimState) :
    (pause s).frameIndex = s.frameIndex := (pause_preserved s).2.2.2.2.1

theorem showFrame_FRAME_INTERVAL (i : Int) (s : AnimState) :
    (showFrame i s).FRAME_INTERVAL = s.FRAME_INTERVAL :=
  (showFrame_preserved i s).2.2.2.2.2.2.2.2.2.2.1

theorem showFrame_TILE_SIZE (i : Int) (s : AnimState) :
    (showFrame i s).TILE_SIZE = s.TILE_SIZE :=
  (showFrame_preserved i s).2.2.2.2.2.2.2.2.2.2.2

theorem setMode_FRAME_INTERVAL (m : Mode) (s : AnimState) :
    (setMode m s).FRAME_INTERVAL = s.FRAME_INTERVAL :=
  (setMode_preserved m s).2.2.2.2.2.2.2.2.2.2.1

theorem setMode_TILE_SIZE (m : Mode) (s : AnimState) :
    (setMode m s).TILE_SIZE = s.TILE_SIZE :=
  (setMode_preserved m s).2.2.2.2.2.2.2.2.2.2.2

set_option maxHeartbeats 800000 in
theorem setResolution_sizes (size : Nat) (u : AnimState) :
    (setResolution size u).FRAME_INTERVAL = (if size = 512 then 650 else 450) ∧
    (setResolution size u).TILE_SIZE = size := by
  unfold setResolution
  cases hu : u.isPlaying <;> dsimp only <;>
    simp [play_FRAME_INTERVAL, play_TILE_SIZE, setMode_FRAME_INTERVAL, setMode_TILE_SIZE,
      showFrame_FRAME_INTERVAL, showFrame_TILE_SIZE]

theorem pause_rainFrames (s : AnimState) :
    (pause s).rainFrames = s.rainFrames := (pause_preserved s).1

theorem pause_satelliteFrames (s : AnimState) :
    (pause s).satelliteFrames = s.satelliteFrames := (pause_preserved s).2.1

theorem pause_currentMode (s : AnimState) :
    (pause s).currentMode = s.currentMode := (pause_preserved s).2.2.1

theorem pause_currentLayerType (s : AnimState) :
    (pause s).currentLayerType = s.currentLayerType := (pause_preserved s).2.2.2.1

theorem play_rainFrames (s : AnimState) :
    (play s).rainFrames = s.rainFrames := (play_preserved s).1

theorem play_satelliteFrames (s : AnimState) :
    (play s).satelliteFrames = s.satelliteFrames := (play_preserved s).2.1

theorem play_currentLayerType (s : AnimState) :
    (play s).currentLayerType = s.currentLayerType := (play_preserved s).2.2.2.1

theorem play_currentMode (s : AnimState) :
    (play s).currentMode = s.currentMode := (play_preserved s).2.2.1

set_option maxHeartbeats 800000 in
theorem setResolution_frameIndex (size : Nat) (u : AnimState)
    (h0 : 0 ≤ u.frameIndex) (h1 : u.frameIndex < (activeFrameCount u : Int)) :
    (setResolution size u).frameIndex = u.frameIndex ∧
    activeFrameCount (setResolution size u) = activeFrameCount u := by
  have hcnt : activeFrameCount u ≠ 0 := by omega
  unfold setResolution
  cases hu : u.isPlaying <;> dsimp only <;>
    simp_all [activeFrameCount, activeFrameCount_mk,
      showFrame_rainFrames, showFrame_satelliteFrames, showFrame_currentMode,
      showFrame_currentLayerType, showFrame_frameIndex,
      setMode_rainFrames, setMode_satelliteFrames, setMode_currentLayerType,
      setMode_frameIndex, setMode_currentMode,
      play_rainFrames, play_satelliteFrames, play_currentLayerType, play_frameIndex,
      pause_rainFrames, pause_satelliteFrames, pause_currentLayerType, pause_currentMode,
      pause_frameIndex, tmod_inrange]



theorem pause_rainLayer (s : AnimState) :
    (pause s).rainLayer = s.rainLayer := (pause_preserved s).2.2.2.2.2.1

theorem pause_rainAttached (s : AnimState) :
    (pause s).rainAttached = s.rainAttached := (pause_preserved s).2.2.2.2.2.2.1

theorem pause_radarLayer (s : AnimState) :
    (pause s).radarLayer = s.radarLayer := (pause_preserved s).2.2.2.2.2.2.2.1

theorem pause_radarAttached (s : AnimState) :
    (pause s).radarAttached = s.radarAttached := (pause_preserved s).2.2.2.2.2.2.2.2.1

theorem play_rainLayer (s : AnimState) :
    (play s).rainLayer = s.rainLayer := (play_preserved s).2.2.2.2.2.1

theorem play_rainAttached (s : AnimState) :
    (play s).rainAttached = s.rainAttached := (play_preserved s).2.2.2.2.2.2.1

theorem play_radarLayer (s : AnimState) :
    (play s).radarLayer = s.radarLayer := (play_preserved s).2.2.2.2.2.2.2.1

theorem play_radarAttached (s : AnimState) :
    (play s).radarAttached = s.radarAttached := (play_preserved s).2.2.2.2.2.2.2.2.1

theorem setMode_auto_attach (m : Mode) (s : AnimState)
    (hm : m = .animated ∨ m = .auto) (h : s.rainLayer.isSome) :
    (setMode m s).rainAttached = true ∧ (setMode m s).radarAttached = false := by
  rcases hm with hm | hm <;> subst hm <;> unfold setMode <;> dsimp only <;>
    rw [if_pos h] <;> exact ⟨rfl, rfl⟩

theorem setMode_auto_none (s : AnimState) (h : s.rainLayer = none) :
    (setMode .auto s).rainAttached = s.rainAttached ∧
    (setMode .auto s).radarAttached = false := by
  unfold setMode
  dsimp only
  rw [if_neg (by simp [h])]
  exact ⟨rfl, rfl⟩

theorem effectiveRenderState_congr {s1 s2 : AnimState}
    (h1 : s1.rainAttached = s2.rainAttached)
    (h2 : s1.radarAttached = s2.radarAttached) :
    effectiveRenderState s1 = effectiveRenderState s2 := by
  unfold effectiveRenderState
  rw [h1, h2]

theorem play_eff (s : AnimState) :
    effectiveRenderState (play s) = effectiveRenderState s :=
  effectiveRenderState_congr (play_rainAttached s) (play_radarAttached s)

theorem eff_animated_of (s : AnimState) (h : s.rainAttached = true) :
    effectiveRenderState s = .animated := by
  unfold effectiveRenderState
  rw [h]
  rfl

theorem resolveShown (u : AnimState) (hm : u.currentMode = .auto)
    (hlen : activeFrameCount u ≠ 0) :
    effectiveRenderState
        (setMode (showFrame ((activeFrameCount u : Int) - 1) u).currentMode
          (showFrame ((activeFrameCount u : Int) - 1) u)) = .animated ∧
    (setMode (showFrame ((activeFrameCount u : Int) - 1) u).currentMode
        (showFrame ((activeFrameCount u : Int) - 1) u)).currentMode = .auto ∧
    (setMode (showFrame ((activeFrameCount u : Int) - 1) u).currentMode
        (showFrame ((activeFrameCount u : Int) - 1) u)).radarAttached = false ∧
    activeFrameCount
        (setMode (showFrame ((activeFrameCount u : Int) - 1) u).currentMode
          (showFrame ((activeFrameCount u : Int) - 1) u)) = activeFrameCount u := by
  set v := showFrame ((activeFrameCount u : Int) - 1) u with hv
  have hvm : v.currentMode = .auto := by rw [hv, showFrame_currentMode, hm]
  have hatt := showFrame_attach ((activeFrameCount u : Int) - 1) u hlen (Or.inr hm)
    (by omega) (by omega)
  rw [← hv] at hatt
  have hw := setMode_auto_attach v.currentMode v (Or.inr hvm) hatt.2
  refine ⟨eff_animated_of _ hw.1, ?_, hw.2, ?_⟩
  · rw [setMode_currentMode, hvm]
  · rw [setMode_activeFrameCount, hv, showFrame_activeFrameCount]

theorem refreshFinish_resolve (u : AnimState) (hm : u.currentMode = .auto)
    (hr : u.radarLayer.isSome) :
    (activeFrameCount (refreshFinish u) = 0 →
        effectiveRenderState (refreshFinish u) = .static ∧
        (refreshFinish u).currentMode = .static) ∧
    (activeFrameCount (refreshFinish u) ≠ 0 →
        effectiveRenderState (refreshFinish u) = .animated ∧
        (refreshFinish u).currentMode = .auto) := by
  unfold refreshFinish
  dsimp only
  split
  · rename_i hpos
    have hlen : activeFrameCount u ≠ 0 := by omega
    have hres := resolveShown u hm hlen
    rw [if_neg (by simp [hres.2.2.1])]
    constructor
    · intro h0
      rw [hres.2.2.2] at h0
      exact absurd h0 hlen
    · intro _
      exact ⟨hres.1, hres.2.1⟩
  · rename_i hneg
    constructor
    · intro _
      exact ⟨setMode_static_eff u hr, setMode_currentMode _ _⟩
    · intro hne
      rw [setMode_activeFrameCount] at hne
      omega


theorem setLayerTypeFinish_resolve (wasPlaying : Bool) (u : AnimState)
    (hm : u.currentMode = .auto) (hr : u.radarLayer.isSome) :
    (activeFrameCount (setLayerTypeFinish wasPlaying u) = 0 →
        effectiveRenderState (setLayerTypeFinish wasPlaying u) = .static ∧
        (setLayerTypeFinish wasPlaying u).currentMode = .static) ∧
    (activeFrameCount (setLayerTypeFinish wasPlaying u) ≠ 0 →
        effectiveRenderState (setLayerTypeFinish wasPlaying u) = .animated ∧
        (setLayerTypeFinish wasPlaying u).currentMode = .auto) := by
  unfold setLayerTypeFinish
  dsimp only
  split
  · rename_i hpos
    have hlen : activeFrameCount u ≠ 0 := by omega
    have hres := resolveShown
      { u with rainLayer := none, frameIndex := (activeFrameCount u : Int) - 1 } hm hlen
    have hcnt : activeFrameCount
        { u with rainLayer := none, frameIndex := (activeFrameCount u : Int) - 1 }
        = activeFrameCount u := rfl
    rw [hcnt] at hres
    cases wasPlaying
    case false =>
      rw [if_neg (by decide)]
      constructor
      · intro h0
        rw [hres.2.2.2] at h0
        exact absurd h0 hlen
      · intro _
        exact ⟨hres.1, hres.2.1⟩
    case true =>
      rw [if_pos (by decide)]
      constructor
      · intro h0
        rw [play_activeFrameCount, hres.2.2.2] at h0
        exact absurd h0 hlen
      · intro _
        refine ⟨?_, ?_⟩
        · rw [play_eff]
          exact hres.1
        · rw [play_currentMode]
          exact hres.2.1
  · rename_i hneg
    split
    · constructor
      · intro _
        exact ⟨setMode_static_eff u hr, setMode_currentMode _ _⟩
      · intro hne
        rw [setMode_activeFrameCount] at hne
        omega
    · rename_i hcond
      exact absurd (Or.inr hm) hcond


theorem timerInv_applyOp (op : PlayOp) (s : AnimState) (h : timerInv s) :
    timerInv (applyOp op s) := by
  obtain ⟨h1, h2⟩ := h
  cases op <;> unfold applyOp play pause <;> dsimp only <;> repeat' split
  all_goals constructor <;> simp_all <;> omega

theorem timerInv_applyOps (ops : List PlayOp) (s : AnimState) (h : timerInv s) :
    timerInv (applyOps ops s) := by
  induction ops generalizing s with
  | nil => exact h
  | cons op rest ih => exact ih _ (timerInv_applyOp op s h)


/-! ## Claim theorems -/


/-- C1 counterexample: with the stored mode Auto, no frames for the
active layer, no animated layer object and the static overlay attached
(the state right after initMap), calling setMode('auto') detaches the
static overlay and attaches nothing, so the effective render state is
off, not the Static the claim requires for an empty FrameSet. -/
theorem C1_counterexample_setMode_auto_empty :
    initialState.currentMode = .auto ∧
    activeFrameCount initialState = 0 ∧
    effectiveRenderState (setMode .auto initialState) = .off ∧
    ¬ effectiveRenderState (setMode .auto initialState) = .static :=
  ⟨rfl, rfl, by decide, by decide⟩

/-- C1 (amended): with the stored mode Auto and a static layer object
present, setLayerType and a successful data refresh do resolve the
policy — an empty active FrameSet yields the Static render state (but
stores DisplayMode static, leaving Auto), a non-empty one yields the
Animated render state with the stored mode still Auto.  A bare
setMode('auto') call does not consult the FrameSet: it attaches the
animated overlay object whenever one exists and otherwise leaves no
overlay attached. -/
theorem C1_auto_resolution_amended (s : AnimState) (t : String) (data : JVal)
    (satRes : FetchResult) (hmode : s.currentMode = .auto)
    (hradar : s.radarLayer.isSome) :
    ((activeFrameCount (setLayerType t s) = 0 →
        effectiveRenderState (setLayerType t s) = .static ∧
        (setLayerType t s).currentMode = .static) ∧
     (activeFrameCount (setLayerType t s) ≠ 0 →
        effectiveRenderState (setLayerType t s) = .animated ∧
        (setLayerType t s).currentMode = .auto)) ∧
    ((activeFrameCount (initRadarAnimation (.ok data) satRes s) = 0 →
        effectiveRenderState (initRadarAnimation (.ok data) satRes s) = .static ∧
        (initRadarAnimation (.ok data) satRes s).currentMode = .static) ∧
     (activeFrameCount (initRadarAnimation (.ok data) satRes s) ≠ 0 →
        effectiveRenderState (initRadarAnimation (.ok data) satRes s) = .animated ∧
        (initRadarAnimation (.ok data) satRes s).currentMode = .auto)) ∧
    (s.rainLayer.isSome → effectiveRenderState (setMode .auto s) = .animated) ∧
    (s.rainLayer = none → s.rainAttached = false →
        effectiveRenderState (setMode .auto s) = .off) := by
  refine ⟨?_, ?_, ?_, ?_⟩
  · unfold setLayerType
    dsimp only
    cases hb : s.isPlaying
    case false =>
      rw [if_neg (by decide)]
      exact setLayerTypeFinish_resolve false _ hmode rfl
    case true =>
      rw [if_pos rfl]
      exact setLayerTypeFinish_resolve true _ ((pause_currentMode s).trans hmode) rfl
  · unfold initRadarAnimation
    dsimp only
    exact refreshFinish_resolve _ hmode hradar
  · exact fun h => setMode_animated_eff .auto s (Or.inr rfl) h
  · intro h1 h2
    have hn := setMode_auto_none s h1
    unfold effectiveRenderState
    rw [hn.1, hn.2, h2]
    rfl

/-- Witness for C1 (amended) at the post-initMap state, switching to
the satellite layer (whose FrameSet is empty) and refreshing with a
one-frame radar payload (non-empty active FrameSet). -/
theorem C1_auto_resolution_amended_witness :
    ((activeFrameCount (setLayerType "satellite" initialState) = 0 →
        effectiveRenderState (setLayerType "satellite" initialState) = .static ∧
        (setLayerType "satellite" initialState).currentMode = .static) ∧
     (activeFrameCount (setLayerType "satellite" initialState) ≠ 0 →
        effectiveRenderState (setLayerType "satellite" initialState) = .animated ∧
        (setLayerType "satellite" initialState).currentMode = .auto)) ∧
    ((activeFrameCount (initRadarAnimation (.ok radarOkPayload) .fail initialState) = 0 →
        effectiveRenderState (initRadarAnimation (.ok radarOkPayload) .fail initialState) = .static ∧
        (initRadarAnimation (.ok radarOkPayload) .fail initialState).currentMode = .static) ∧
     (activeFrameCount (initRadarAnimation (.ok radarOkPayload) .fail initialState) ≠ 0 →
        effectiveRenderState (initRadarAnimation (.ok radarOkPayload) .fail initialState) = .animated ∧
        (initRadarAnimation (.ok radarOkPayload) .fail initialState).currentMode = .auto)) ∧
    (initialState.rainLayer.isSome →
        effectiveRenderState (setMode .auto initialState) = .animated) ∧
    (initialState.rainLayer = none → initialState.rainAttached = false →
        effectiveRenderState (setMode .auto initialState) = .off) :=
  C1_auto_resolution_amended initialState "satellite" radarOkPayload .fail rfl rfl

/-- C2 counterexample: a state that is playing with loaded frames, hit
by a refresh whose maps.json fetch throws: the FrameSets are NOT
emptied and the playback timer is NOT stopped, contrary to the claim. -/
theorem C2_counterexample_failed_refresh :
    (initRadarAnimation .fail .fail demoPlayingState).rainFrames = [100] ∧
    (initRadarAnimation .fail .fail demoPlayingState).satelliteFrames = [⟨"aa", some 5⟩] ∧
    (initRadarAnimation .fail .fail demoPlayingState).animTimer = true ∧
    ¬ ((initRadarAnimation .fail .fail demoPlayingState).rainFrames = [] ∧
       (initRadarAnimation .fail .fail demoPlayingState).satelliteFrames = [] ∧
       (initRadarAnimation .fail .fail demoPlayingState).animTimer = false) :=
  ⟨by decide, by decide, by decide, by decide⟩

/-- C2 (amended): when the refresh request fails entirely (network
error, non-OK response or invalid JSON), the code leaves both FrameSets
unchanged, stores DisplayMode static and renders the static overlay
(when a static layer object exists), and does not stop the playback
timer. -/
theorem C2_failed_refresh_amended (s : AnimState) (radarRes satRes : FetchResult)
    (hfail : radarRes = .fail ∨ radarRes = .notOk ∨ radarRes = .badJson) :
    (initRadarAnimation radarRes satRes s).rainFrames = s.rainFrames ∧
    (initRadarAnimation radarRes satRes s).satelliteFrames = s.satelliteFrames ∧
    (initRadarAnimation radarRes satRes s).currentMode = .static ∧
    (initRadarAnimation radarRes satRes s).animTimer = s.animTimer ∧
    (initRadarAnimation radarRes satRes s).isPlaying = s.isPlaying ∧
    (initRadarAnimation radarRes satRes s).timers = s.timers ∧
    (s.radarLayer.isSome →
        effectiveRenderState (initRadarAnimation radarRes satRes s) = .static) := by
  rcases hfail with h | h | h <;> subst h <;>
    exact ⟨setMode_rainFrames _ _, setMode_satelliteFrames _ _, setMode_currentMode _ _,
      setMode_animTimer _ _, setMode_isPlaying _ _, setMode_timers _ _,
      fun hh => setMode_static_eff s hh⟩

/-- Witness for C2 (amended) at a playing state with loaded frames and
a failing fetch. -/
theorem C2_failed_refresh_amended_witness :
    (initRadarAnimation .fail .fail demoPlayingState).rainFrames
        = demoPlayingState.rainFrames ∧
    (initRadarAnimation .fail .fail demoPlayingState).satelliteFrames
        = demoPlayingState.satelliteFrames ∧
    (initRadarAnimation .fail .fail demoPlayingState).currentMode = .static ∧
    (initRadarAnimation .fail .fail demoPlayingState).animTimer
        = demoPlayingState.animTimer ∧
    (initRadarAnimation .fail .fail demoPlayingState).isPlaying
        = demoPlayingState.isPlaying ∧
    (initRadarAnimation .fail .fail demoPlayingState).timers
        = demoPlayingState.timers ∧
    (demoPlayingState.radarLayer.isSome →
        effectiveRenderState (initRadarAnimation .fail .fail demoPlayingState) = .static) :=
  C2_failed_refresh_amended demoPlayingState .fail .fail (Or.inl rfl)


/-- C3: radar frame normalization matches the spec pipeline — the
FrameSet is the past-then-nowcast concatenation with each entry time
coerced to a number, non-finite values discarded, sorted ascending, and
only the last maxFrames entries retained (oldest dropped first) — for
every positive maxFrames (the stored MAX_FRAMES always lies in
[6, 60]); the result is sorted and capped.  The null-freedom
hypotheses record that a literal null entry would instead throw inside
the source mapping loop. -/
theorem C3_radar_normalization (past nowc : List JVal) (maxFrames : Nat)
    (hmf : 1 ≤ maxFrames) (_hpast : JVal.null ∉ past) (_hnowc : JVal.null ∉ nowc) :
    normalizeRadarFrames past nowc maxFrames = specRadarFrames past nowc maxFrames ∧
    List.Sorted (· ≤ ·) (normalizeRadarFrames past nowc maxFrames) ∧
    (normalizeRadarFrames past nowc maxFrames).length ≤ maxFrames := by
  have hne : maxFrames ≠ 0 := by omega
  refine ⟨?_, ?_, ?_⟩
  · unfold normalizeRadarFrames specRadarFrames keepLast
    rw [jsSliceLast_of_pos _ hne]
  · unfold normalizeRadarFrames
    exact List.Pairwise.sublist (jsSliceLast_suffix _ _).sublist
      (List.sorted_insertionSort _ _)
  · unfold normalizeRadarFrames
    rw [length_jsSliceLast _ hne]
    exact min_le_left _ _

/-- Witness for C3 at the spec scenario past = [100, 200, 300],
nowcast = [400], maxFrames = 3, together with the concrete resulting
FrameSet [200, 300, 400] (the oldest frame 100 dropped). -/
theorem C3_radar_normalization_witness :
    (normalizeRadarFrames radarDemoPast radarDemoNowc 3
        = specRadarFrames radarDemoPast radarDemoNowc 3 ∧
     List.Sorted (· ≤ ·) (normalizeRadarFrames radarDemoPast radarDemoNowc 3) ∧
     (normalizeRadarFrames radarDemoPast radarDemoNowc 3).length ≤ 3) ∧
    normalizeRadarFrames radarDemoPast radarDemoNowc 3 = [200, 300, 400] :=
  ⟨C3_radar_normalization radarDemoPast radarDemoNowc 3 (by omega)
      (by simp [radarDemoPast]) (by simp [radarDemoNowc]),
   by decide⟩

/-- C4: satellite-family normalization — the extraction visits the
nested payload, and its result has pairwise-distinct path identifiers,
is sorted ascending by embedded time with a missing time treated as 0,
contains for each of its frames exactly the first collected occurrence
of that path, covers every collected non-empty path, and the caller
retains only the last maxFrames entries (a suffix of length
min maxFrames length). -/
theorem C4_satellite_normalization (source : JVal) (n : Nat) (hn : 1 ≤ n) :
    ((extractSatelliteFrames source).map SatFrame.path).Nodup ∧
    List.Sorted satLe (extractSatelliteFrames source) ∧
    (∀ f ∈ extractSatelliteFrames source,
        List.find? (fun g => g.path == f.path) (visitVal source) = some f) ∧
    (∀ f ∈ visitVal source, f.path ≠ "" →
        ∃ g ∈ extractSatelliteFrames source, g.path = f.path) ∧
    (jsSliceLast n (extractSatelliteFrames source)).IsSuffix
        (extractSatelliteFrames source) ∧
    (jsSliceLast n (extractSatelliteFrames source)).length
        = min n (extractSatelliteFrames source).length := by
  have hperm : (extractSatelliteFrames source).Perm (dedupByPath [] (visitVal source)) :=
    List.perm_insertionSort satLe _
  refine ⟨?_, ?_, ?_, ?_, jsSliceLast_suffix _ _, length_jsSliceLast _ (by omega)⟩
  · exact (hperm.map SatFrame.path).nodup_iff.mpr (dedupByPath_nodup [] _)
  · exact List.sorted_insertionSort satLe _
  · intro f hf
    exact (dedupByPath_first_wins [] _ (hperm.mem_iff.mp hf)).2.2
  · intro f hf hfp
    obtain ⟨g, hg, hgp⟩ :=
      dedupByPath_path_covered hfp [] (visitVal source) (by simp) ⟨f, hf, rfl⟩
    exact ⟨g, hperm.mem_iff.mpr hg, hgp⟩

/-- Witness for C4 at the duplicate-path payload [a, b, a] (times
30, 10, 20) with n = 2, together with the concrete normalized result:
two frames, the first occurrence of a (time 30) retained, ordered by
embedded time. -/
theorem C4_satellite_normalization_witness :
    (((extractSatelliteFrames satDemoPayload).map SatFrame.path).Nodup ∧
     List.Sorted satLe (extractSatelliteFrames satDemoPayload) ∧
     (∀ f ∈ extractSatelliteFrames satDemoPayload,
        List.find? (fun g => g.path == f.path) (visitVal satDemoPayload) = some f) ∧
     (∀ f ∈ visitVal satDemoPayload, f.path ≠ "" →
        ∃ g ∈ extractSatelliteFrames satDemoPayload, g.path = f.path) ∧
     (jsSliceLast 2 (extractSatelliteFrames satDemoPayload)).IsSuffix
        (extractSatelliteFrames satDemoPayload) ∧
     (jsSliceLast 2 (extractSatelliteFrames satDemoPayload)).length
        = min 2 (extractSatelliteFrames satDemoPayload).length) ∧
    extractSatelliteFrames satDemoPayload = [⟨"b", some 10⟩, ⟨"a", some 30⟩] :=
  ⟨C4_satellite_normalization satDemoPayload 2 (by omega), by decide⟩


theorem pause_animTimer_false (s : AnimState) : (pause s).animTimer = false := by
  unfold pause
  dsimp only
  split
  · rfl
  · simp_all

theorem pause_isPlaying_false (s : AnimState) : (pause s).isPlaying = false := by
  unfold pause
  dsimp only
  split <;> rfl

theorem setLayerTypeFinish_playback (wasPlaying : Bool) (u : AnimState)
    (hA : u.animTimer = false) (hP : u.isPlaying = false) :
    (activeFrameCount (setLayerTypeFinish wasPlaying u) ≠ 0 →
        (setLayerTypeFinish wasPlaying u).frameIndex
          = (activeFrameCount (setLayerTypeFinish wasPlaying u) : Int) - 1) ∧
    ((setLayerTypeFinish wasPlaying u).isPlaying = true ↔
        (wasPlaying = true ∧ activeFrameCount (setLayerTypeFinish wasPlaying u) ≠ 0)) ∧
    (setLayerTypeFinish wasPlaying u).animTimer
        = (setLayerTypeFinish wasPlaying u).isPlaying := by
  unfold setLayerTypeFinish
  dsimp only
  split
  · rename_i hpos
    have hlen : activeFrameCount u ≠ 0 := by omega
    have hc3 : activeFrameCount
        { u with rainLayer := none, frameIndex := (activeFrameCount u : Int) - 1 }
        = activeFrameCount u := rfl
    set v := showFrame ((activeFrameCount u : Int) - 1)
      { u with rainLayer := none, frameIndex := (activeFrameCount u : Int) - 1 } with hv
    set w := setMode v.currentMode v with hw
    have hcv : activeFrameCount v = activeFrameCount u := by
      rw [hv, showFrame_activeFrameCount, hc3]
    have hcw : activeFrameCount w = activeFrameCount u := by
      rw [hw, setMode_activeFrameCount, hcv]
    have hfi : w.frameIndex = (activeFrameCount u : Int) - 1 := by
      rw [hw, setMode_frameIndex, hv, showFrame_frameIndex _ _ (by rw [hc3]; exact hlen),
        hc3, tmod_last _ hlen]
    have hwp : w.isPlaying = false := by
      rw [hw, setMode_isPlaying, hv, showFrame_isPlaying]
      exact hP
    have hwa : w.animTimer = false := by
      rw [hw, setMode_animTimer, hv, showFrame_animTimer]
      exact hA
    cases wasPlaying
    case false =>
      rw [if_neg (by decide)]
      refine ⟨fun _ => by rw [hfi, hcw], ?_, ?_⟩
      · rw [hwp]
        simp
      · rw [hwa, hwp]
    case true =>
      rw [if_pos rfl, play_spec w hwa (by rw [hcw]; exact hlen)]
      have hcr : activeFrameCount
          { w with isPlaying := true, animTimer := true, timers := w.timers + 1 }
          = activeFrameCount w := rfl
      refine ⟨fun _ => ?_, ?_, rfl⟩
      · show w.frameIndex = _
        rw [hcr, hcw]
        exact hfi
      · show true = true ↔ _
        rw [hcr, hcw]
        simp [hlen]
  · rename_i hneg
    have hzero : activeFrameCount u = 0 := by omega
    have hiff : ∀ r : AnimState, r.isPlaying = false → r.animTimer = false →
        activeFrameCount r = 0 →
        ((r.isPlaying = true ↔ (wasPlaying = true ∧ activeFrameCount r ≠ 0)) ∧
          r.animTimer = r.isPlaying) := by
      intro r h1 h2 h3
      rw [h1, h2, h3]
      simp
    split
    · have h1 : (setMode Mode.static u).isPlaying = false := by
        rw [setMode_isPlaying]; exact hP
      have h2 : (setMode Mode.static u).animTimer = false := by
        rw [setMode_animTimer]; exact hA
      have h3 : activeFrameCount (setMode Mode.static u) = 0 := by
        rw [setMode_activeFrameCount]; exact hzero
      refine ⟨fun hcon => absurd h3 hcon, (hiff _ h1 h2 h3).1, (hiff _ h1 h2 h3).2⟩
    · have h1 : (setMode u.currentMode u).isPlaying = false := by
        rw [setMode_isPlaying]; exact hP
      have h2 : (setMode u.currentMode u).animTimer = false := by
        rw [setMode_animTimer]; exact hA
      have h3 : activeFrameCount (setMode u.currentMode u) = 0 := by
        rw [setMode_activeFrameCount]; exact hzero
      have hnoop : (if wasPlaying = true then play (setMode u.currentMode u)
          else setMode u.currentMode u) = setMode u.currentMode u := by
        cases wasPlaying
        · rw [if_neg (by decide)]
        · rw [if_pos rfl, play_noop_empty _ h3]
      rw [hnoop]
      refine ⟨fun hcon => absurd h3 hcon, (hiff _ h1 h2 h3).1, (hiff _ h1 h2 h3).2⟩

set_option maxHeartbeats 800000 in
/-- C5: for every layer switch, starting from a state whose timer
handle agrees with the playing flag, when the new active FrameSet is
non-empty the new frameIndex is its last index (frameCount - 1), and
playback runs after the call exactly when it was running before and the
new FrameSet is non-empty (with the timer handle again agreeing with
the playing flag). -/
theorem C5_layer_switch (s : AnimState) (t : String)
    (hinv : s.animTimer = s.isPlaying) :
    (activeFrameCount (setLayerType t s) ≠ 0 →
        (setLayerType t s).frameIndex = (activeFrameCount (setLayerType t s) : Int) - 1) ∧
    ((setLayerType t s).isPlaying = true ↔
        (s.isPlaying = true ∧ activeFrameCount (setLayerType t s) ≠ 0)) ∧
    (setLayerType t s).animTimer = (setLayerType t s).isPlaying := by
  unfold setLayerType
  dsimp only
  cases hb : s.isPlaying
  case false =>
    rw [if_neg (by decide)]
    exact setLayerTypeFinish_playback false _ (hinv.trans hb) hb
  case true =>
    rw [if_pos rfl]
    exact setLayerTypeFinish_playback true _ (pause_animTimer_false s) (pause_isPlaying_false s)

/-- Witness for C5: switching a playing radar state (one radar frame,
one satellite frame) to the satellite layer. -/
theorem C5_layer_switch_witness :
    (activeFrameCount (setLayerType "satellite" demoPlayingState) ≠ 0 →
        (setLayerType "satellite" demoPlayingState).frameIndex
          = (activeFrameCount (setLayerType "satellite" demoPlayingState) : Int) - 1) ∧
    ((setLayerType "satellite" demoPlayingState).isPlaying = true ↔
        (demoPlayingState.isPlaying = true ∧
          activeFrameCount (setLayerType "satellite" demoPlayingState) ≠ 0)) ∧
    (setLayerType "satellite" demoPlayingState).animTimer
        = (setLayerType "satellite" demoPlayingState).isPlaying :=
  C5_layer_switch demoPlayingState "satellite" (by decide)

/-- C6: advancing the displayed frame on a non-empty active FrameSet of
length N from an in-bounds frameIndex takes the new index modulo N:
+1 from N-1 wraps to 0 and -1 from 0 wraps to N-1. -/
theorem C6_circular_advance (s : AnimState) (d : Int) (hd : d = 1 ∨ d = -1)
    (hlen : activeFrameCount s ≠ 0)
    (h0 : 0 ≤ s.frameIndex) (h1 : s.frameIndex < (activeFrameCount s : Int)) :
    (showFrame (s.frameIndex + d) s).frameIndex
        = (s.frameIndex + d + (activeFrameCount s : Int)) % (activeFrameCount s : Int) ∧
    (s.frameIndex = (activeFrameCount s : Int) - 1 → d = 1 →
        (showFrame (s.frameIndex + d) s).frameIndex = 0) ∧
    (s.frameIndex = 0 → d = -1 →
        (showFrame (s.frameIndex + d) s).frameIndex
          = (activeFrameCount s : Int) - 1) := by
  have hdge : -1 ≤ d ∧ d ≤ 1 := by rcases hd with h | h <;> omega
  refine ⟨?_, ?_, ?_⟩
  · rw [showFrame_frameIndex _ _ hlen]
    exact Int.tmod_eq_emod (by omega) (by omega)
  · intro hfi hd1
    subst hd1
    rw [showFrame_frameIndex _ _ hlen, hfi]
    have harith : (activeFrameCount s : Int) - 1 + 1 + (activeFrameCount s : Int)
        = (activeFrameCount s : Int) + (activeFrameCount s : Int) := by ring
    rw [harith, Int.tmod_eq_emod (by omega) (by omega)]
    simp
  · intro hfi hdneg
    subst hdneg
    rw [showFrame_frameIndex _ _ hlen, hfi]
    have harith : (0 : Int) + -1 + (activeFrameCount s : Int)
        = (activeFrameCount s : Int) - 1 := by ring
    rw [harith, Int.tmod_eq_emod (by omega) (by omega)]
    exact Int.emod_eq_of_lt (by omega) (by omega)

/-- Witness for C6 at a three-frame radar state: +1 from the last index
2 wraps to 0. -/
theorem C6_circular_advance_witness :
    ((showFrame (demoFramesState.frameIndex + 1) demoFramesState).frameIndex
        = (demoFramesState.frameIndex + 1 + (activeFrameCount demoFramesState : Int))
            % (activeFrameCount demoFramesState : Int) ∧
     (demoFramesState.frameIndex = (activeFrameCount demoFramesState : Int) - 1 → (1 : Int) = 1 →
        (showFrame (demoFramesState.frameIndex + 1) demoFramesState).frameIndex = 0) ∧
     (demoFramesState.frameIndex = 0 → (1 : Int) = -1 →
        (showFrame (demoFramesState.frameIndex + 1) demoFramesState).frameIndex
          = (activeFrameCount demoFramesState : Int) - 1)) ∧
    (showFrame (demoFramesState.frameIndex + 1) demoFramesState).frameIndex = 2 :=
  ⟨C6_circular_advance demoFramesState 1 (Or.inl rfl) (by decide) (by decide) (by decide),
   by decide⟩


/-- C7: from a state with 256-pixel tiles and an in-bounds frameIndex,
setResolution(512) followed by setResolution(256) restores the frame
interval to 450 ms and the tile size to 256 and leaves frameIndex
unchanged; and every setResolution call ties the interval to the size:
450 ms for 256, 650 ms for 512. -/
theorem C7_resolution_roundtrip (s : AnimState) (_h256 : s.TILE_SIZE = 256)
    (h0 : 0 ≤ s.frameIndex) (h1 : s.frameIndex < (activeFrameCount s : Int)) :
    (setResolution 256 (setResolution 512 s)).FRAME_INTERVAL = 450 ∧
    (setResolution 256 (setResolution 512 s)).TILE_SIZE = 256 ∧
    (setResolution 256 (setResolution 512 s)).frameIndex = s.frameIndex ∧
    (setResolution 256 s).FRAME_INTERVAL = 450 ∧
    (setResolution 512 s).FRAME_INTERVAL = 650 := by
  have hA := setResolution_frameIndex 512 s h0 h1
  have hB := setResolution_frameIndex 256 (setResolution 512 s)
    (by rw [hA.1]; exact h0) (by rw [hA.1, hA.2]; exact h1)
  refine ⟨?_, ?_, ?_, ?_, ?_⟩
  · exact (setResolution_sizes 256 _).1.trans (by decide)
  · exact (setResolution_sizes 256 _).2
  · rw [hB.1, hA.1]
  · exact (setResolution_sizes 256 s).1.trans (by decide)
  · exact (setResolution_sizes 512 s).1.trans (by decide)

/-- Witness for C7 at a three-frame radar state with frameIndex 1 and
256-pixel tiles. -/
theorem C7_resolution_roundtrip_witness :
    (setResolution 256 (setResolution 512 demoFramesState)).FRAME_INTERVAL = 450 ∧
    (setResolution 256 (setResolution 512 demoFramesState)).TILE_SIZE = 256 ∧
    (setResolution 256 (setResolution 512 demoFramesState)).frameIndex
        = demoFramesState.frameIndex ∧
    (setResolution 256 demoFramesState).FRAME_INTERVAL = 450 ∧
    (setResolution 512 demoFramesState).FRAME_INTERVAL = 650 :=
  C7_resolution_roundtrip demoFramesState (by decide) (by decide) (by decide)

/-- C8 counterexample: the user input 0 lies outside [6, 60], but the
stored value is the recommended default (36 on a mid-memory desktop),
not the clamp max 6 (min 60 0) = 6: `parseInt(v) || RECOMMENDED`
replaces the falsy parse result 0 before clamping. -/
theorem C8_counterexample_zero_input :
    recommendedMaxFrames 4 false = 36 ∧
    (maxFramesInputHandler 36 0 initialState).MAX_FRAMES = 36 ∧
    ¬ ((maxFramesInputHandler 36 0 initialState).MAX_FRAMES : Int)
        = max 6 (min 60 (0 : Int)) :=
  ⟨rfl, rfl, by decide⟩

/-- C8 (amended): every nonzero integer input is clamped into [6, 60]
(3 becomes 6, 999 becomes 60) and in-range inputs are stored unchanged,
silently; the input 0, however, is treated like a failed parse and is
replaced by the recommended default, which itself always lies in
[6, 60]; the stored value is therefore always in range. -/
theorem C8_maxframes_clamp_amended (recommended : Nat) (input : Int) (s : AnimState)
    (hrec : 6 ≤ recommended ∧ recommended ≤ 60) :
    (input ≠ 0 → ((maxFramesInputHandler recommended input s).MAX_FRAMES : Int)
        = max 6 (min 60 input)) ∧
    (input = 0 → (maxFramesInputHandler recommended input s).MAX_FRAMES = recommended) ∧
    (6 ≤ input → input ≤ 60 →
        ((maxFramesInputHandler recommended input s).MAX_FRAMES : Int) = input) ∧
    6 ≤ (maxFramesInputHandler recommended input s).MAX_FRAMES ∧
    (maxFramesInputHandler recommended input s).MAX_FRAMES ≤ 60 ∧
    (maxFramesInputHandler recommended 3 s).MAX_FRAMES = 6 ∧
    (maxFramesInputHandler recommended 999 s).MAX_FRAMES = 60 ∧
    (∀ dm : Nat, ∀ mob : Bool,
        6 ≤ recommendedMaxFrames dm mob ∧ recommendedMaxFrames dm mob ≤ 60) := by
  obtain ⟨hr1, hr2⟩ := hrec
  unfold maxFramesInputHandler
  dsimp only
  refine ⟨?_, ?_, ?_, ?_, ?_, ?_, ?_, ?_⟩
  · intro h
    rw [if_neg h]
    omega
  · intro h
    rw [if_pos h]
    omega
  · intro h6 h60
    rw [if_neg (by omega)]
    omega
  · split <;> omega
  · split <;> omega
  · rw [if_neg (by omega)]
    decide
  · rw [if_neg (by omega)]
    decide
  · intro dm mob
    unfold recommendedMaxFrames
    repeat' split
    all_goals omega

/-- Witness for C8 (amended) at the mid-memory desktop default 36 and
the in-range input 7. -/
theorem C8_maxframes_clamp_amended_witness :
    ((7 : Int) ≠ 0 → ((maxFramesInputHandler 36 7 initialState).MAX_FRAMES : Int)
        = max 6 (min 60 (7 : Int))) ∧
    ((7 : Int) = 0 → (maxFramesInputHandler 36 7 initialState).MAX_FRAMES = 36) ∧
    ((6 : Int) ≤ 7 → (7 : Int) ≤ 60 →
        ((maxFramesInputHandler 36 7 initialState).MAX_FRAMES : Int) = 7) ∧
    6 ≤ (maxFramesInputHandler 36 7 initialState).MAX_FRAMES ∧
    (maxFramesInputHandler 36 7 initialState).MAX_FRAMES ≤ 60 ∧
    (maxFramesInputHandler 36 3 initialState).MAX_FRAMES = 6 ∧
    (maxFramesInputHandler 36 999 initialState).MAX_FRAMES = 60 ∧
    (∀ dm : Nat, ∀ mob : Bool,
        6 ≤ recommendedMaxFrames dm mob ∧ recommendedMaxFrames dm mob ≤ 60) :=
  C8_maxframes_clamp_amended 36 7 initialState (by omega)

/-- C9: play() is a no-op when a timer is already live or the active
FrameSet is empty, play and pause are idempotent, and the timer sanity
invariant — at most one live interval timer, the stored handle non-null
exactly when one is live — is preserved by every sequence of public
play/pause calls, so a second recurring timer can never be started
while one is active. -/
theorem C9_single_timer (s : AnimState) (ops : List PlayOp) (hinv : timerInv s) :
    timerInv (applyOps ops s) ∧
    (applyOps ops s).timers ≤ 1 ∧
    (s.animTimer = true → play s = s) ∧
    (activeFrameCount s = 0 → play s = s) ∧
    play (play s) = play s ∧
    pause (pause s) = pause s :=
  ⟨timerInv_applyOps ops s hinv, (timerInv_applyOps ops s hinv).1,
   play_noop_timer s, play_noop_empty s, play_play s, pause_pause s⟩

/-- Witness for C9 from the initial state under the command sequence
play, play, pause, pause, play. -/
theorem C9_single_timer_witness :
    timerInv (applyOps [.playOp, .playOp, .pauseOp, .pauseOp, .playOp] initialState) ∧
    (applyOps [.playOp, .playOp, .pauseOp, .pauseOp, .playOp] initialState).timers ≤ 1 ∧
    (initialState.animTimer = true → play initialState = initialState) ∧
    (activeFrameCount initialState = 0 → play initialState = initialState) ∧
    play (play initialState) = play initialState ∧
    pause (pause initialState) = pause initialState :=
  C9_single_timer initialState [.playOp, .playOp, .pauseOp, .pauseOp, .playOp]
    (by constructor <;> decide)

/-- C10: calling showFrame with any index while the active FrameSet is
empty returns early and leaves the entire animation state unchanged: no
field is mutated, no overlay object is created, nothing is attached or
detached. -/
theorem C10_empty_showFrame_noop (s : AnimState) (i : Int)
    (h : activeFrameCount s = 0) : showFrame i s = s :=
  showFrame_empty_noop s i h

/-- Witness for C10 at the frameless initial state and index 5. -/
theorem C10_empty_showFrame_noop_witness :
    activeFrameCount initialState = 0 ∧
    showFrame 5 initialState = initialState :=
  ⟨by decide, C10_empty_showFrame_noop initialState 5 (by decide)⟩


end RockwellNws
